import Mathlib

/-!
Shallow embedding of the ShopHub order/catalog transaction core
(workspace_for_testing/shophub/backend/app), covering the order engine
(services/order.py and api/v1/endpoints/orders.py), the catalog service
(services/products.py and api/v1/endpoints/products.py), the request-boundary
validation expressed by the Pydantic schemas (schemas/order.py,
schemas/product.py), and the shared dependencies (api/deps.py).

Modelling conventions:
- SQLAlchemy sessions are modelled by an explicit DB value threaded through
  each operation; a committed transaction is one atomic change of that value,
  and a raised HTTPException leaves the DB unchanged (rollback).
- Python float columns (price, total) are modelled as rationals: the code
  only stores and compares them, it never does arithmetic on them.
- uuid4 primary keys are modelled as caller-supplied fresh strings (for
  orders/products) or deterministic strings derived from the order id (for
  order items); server_default timestamps become an explicit now argument.
- HTTPException is modelled by the Err type below, one constructor per
  raise site, carrying the structured content of the detail message.
-/

/-- Row of the products table (models/product.py, class Product). -/
structure Product where
  id : String
  name : String
  description : String
  price : Rat
  image : String
  category : String
  stock : Int
  featured : Bool
  created_at : Nat
  updated_at : Nat
  deriving Repr, DecidableEq

/-- Row of the orders table (models/order.py, class Order). -/
structure Order where
  id : String
  user_id : String
  total : Rat
  status : String
  created_at : Nat
  updated_at : Nat
  deriving Repr, DecidableEq

/-- Row of the order_items table (models/order.py, class OrderItem). -/
structure OrderItem where
  id : String
  order_id : String
  product_id : String
  quantity : Int
  price : Rat
  created_at : Nat
  deriving Repr, DecidableEq

/-- The authenticated actor (models/user.py, class User); only the fields the
order/catalog core reads are modelled. -/
structure User where
  id : String
  role : String
  deriving Repr, DecidableEq

/-- The persistent store: the three tables the order/catalog core touches. -/
structure DB where
  products : List Product
  orders : List Order
  order_items : List OrderItem
  deriving Repr, DecidableEq

/-- Well-formedness of the store: primary keys are unique. -/
def DB.wf (db : DB) : Prop :=
  (db.products.map Product.id).Nodup ∧ (db.orders.map Order.id).Nodup

instance (db : DB) : Decidable db.wf := by
  unfold DB.wf; infer_instance

/-- One constructor per HTTPException raise site reached by the modelled
operations, carrying the structured content of its detail message. The
attributeError constructor models a Python AttributeError escaping the
handler (an unhandled server error, not an HTTPException). -/
inductive Err where
  /-- create_order 404: detail is "Products not found: " followed by the
  comma-joined missing ids (a Python set, modelled as a deduplicated list). -/
  | productsNotFound (missing : List String)
  /-- get_order / update_order 404: "Order with id {order_id} not found". -/
  | orderNotFound (order_id : String)
  /-- get_product_or_404_service 404: "Product not found". -/
  | productNotFound
  /-- 403 with the given detail string. -/
  | forbidden (detail : String)
  /-- Pydantic request-body validation failure (422), raised at the boundary
  before the endpoint body runs. -/
  | validationError
  /-- Unhandled Python AttributeError (surfaces as a 500 server error). -/
  | attributeError
  deriving Repr, DecidableEq

/-- HTTP status each modelled failure produces. -/
def Err.statusCode : Err → Nat
  | .productsNotFound _ => 404
  | .orderNotFound _ => 404
  | .productNotFound => 404
  | .forbidden _ => 403
  | .validationError => 422
  | .attributeError => 500

/-- Request body of one order line (schemas/order.py, OrderItemCreate). -/
structure OrderItemCreate where
  product_id : String
  quantity : Int
  price : Rat
  deriving Repr, DecidableEq

/-- Request body of POST /orders (schemas/order.py, OrderCreate). -/
structure OrderCreate where
  items : List OrderItemCreate
  total : Rat
  deriving Repr, DecidableEq

/-- Request body of PATCH /orders/{id} (schemas/order.py, OrderUpdate):
status is optional, none models both an absent field and an explicit null. -/
structure OrderUpdate where
  status : Option String
  deriving Repr, DecidableEq

/-- Pydantic validation of OrderCreate (schemas/order.py): items has
min_length=1, each quantity gt=0, each price gt=0, total gt=0. -/
def OrderCreateValid (o : OrderCreate) : Bool :=
  decide (1 ≤ o.items.length)
    && o.items.all (fun it => decide (0 < it.quantity) && decide (0 < it.price))
    && decide (0 < o.total)

/-- Pydantic validation of OrderUpdate (schemas/order.py): status, when
present, must be one of the five defined values. -/
def OrderUpdateValid (o : OrderUpdate) : Bool :=
  match o.status with
  | none => true
  | some s =>
      ["pending", "processing", "shipped", "delivered", "cancelled"].contains s

/-- Python truthiness of order_data.status, as tested by the source line
if order_data.status: (None and the empty string are falsy). -/
def OrderUpdate.statusTruthy (o : OrderUpdate) : Bool :=
  match o.status with
  | none => false
  | some s => s ≠ ""

/-- Request body of POST /products (schemas/product.py, ProductCreate). -/
structure ProductCreate where
  name : String
  description : String
  price : Rat
  image : String
  category : String
  stock : Int
  featured : Bool
  deriving Repr, DecidableEq

/-- Pydantic validation of ProductCreate (schemas/product.py): name has
min_length=1 and max_length=200, description/image/category min_length=1,
price gt=0 (strictly positive), stock ge=0. -/
def ProductCreateValid (p : ProductCreate) : Bool :=
  decide (1 ≤ p.name.length) && decide (p.name.length ≤ 200)
    && decide (1 ≤ p.description.length)
    && decide (0 < p.price)
    && decide (1 ≤ p.image.length)
    && decide (1 ≤ p.category.length)
    && decide (0 ≤ p.stock)

/-- Request body of PATCH /products/{id} (schemas/product.py, ProductUpdate):
every field optional; none models a field absent from the partial payload
(model_dump with exclude_unset drops it). -/
structure ProductUpdate where
  name : Option String
  description : Option String
  price : Option Rat
  image : Option String
  category : Option String
  stock : Option Int
  featured : Option Bool
  deriving Repr, DecidableEq

/-- Dependency get_current_admin_user (api/deps.py): 403 unless the actor's
role is admin. -/
def get_current_admin_user (current_user : User) : Except Err User :=
  if current_user.role ≠ "admin" then
    .error (.forbidden "Only admins are allowed to perform this action")
  else
    .ok current_user

/-- Point lookup used by the product service (services/products.py,
ProductService.get_product): first row whose id matches. -/
def ProductService.get_product (db : DB) (product_id : String) : Option Product :=
  db.products.find? (fun p => p.id == product_id)

/-- Helper dependency in endpoints/products.py: fetch the product or raise
404 "Product not found". -/
def get_product_or_404_service (db : DB) (product_id : String) : Except Err Product :=
  match ProductService.get_product db product_id with
  | none => .error .productNotFound
  | some p => .ok p

/-- OrderService.create_order (services/order.py lines 14-49); the endpoint
create_order in endpoints/orders.py lines 32-66 inlines the same logic.
new_order_id models the uuid4 default of the Order row; now models the
server_default timestamp. Returns the post-commit store together with the
result: on an HTTPException the store is returned unchanged (the
transaction never committed). Note the existence check compares the number
of matching product rows against the non-deduplicated length of the
requested id list. -/
def create_order (db : DB) (new_order_id : String) (now : Nat)
    (order_data : OrderCreate) (current_user : User) : DB × Except Err Order :=
  let product_ids := order_data.items.map (fun it => it.product_id)
  let products := db.products.filter (fun p => product_ids.contains p.id)
  if products.length ≠ product_ids.length then
    let found_ids := products.map (fun p => p.id)
    let missing_ids := (product_ids.filter (fun i => ¬ found_ids.contains i)).dedup
    (db, .error (.productsNotFound missing_ids))
  else
    let new_order : Order :=
      { id := new_order_id, user_id := current_user.id, total := order_data.total,
        status := "pending", created_at := now, updated_at := now }
    let new_items : List OrderItem :=
      order_data.items.enum.map (fun p =>
        { id := new_order_id ++ "#" ++ toString p.1, order_id := new_order_id,
          product_id := p.2.product_id, quantity := p.2.quantity,
          price := p.2.price, created_at := now })
    ({ db with orders := db.orders ++ [new_order],
               order_items := db.order_items ++ new_items },
     .ok new_order)

/-- OrderService.get_order_by_id (services/order.py lines 64-65). -/
def get_order_by_id (db : DB) (order_id : String) : Option Order :=
  db.orders.find? (fun o => o.id == order_id)

/-- OrderService.get_order_with_auth (services/order.py lines 67-81); the
endpoint get_order in endpoints/orders.py lines 93-120 inlines the same
logic: 404 if the order does not exist, then 403 unless the actor owns the
order or is admin. -/
def get_order_with_auth (db : DB) (order_id : String) (current_user : User) :
    Except Err Order :=
  match get_order_by_id db order_id with
  | none => .error (.orderNotFound order_id)
  | some order =>
    if order.user_id ≠ current_user.id ∧ current_user.role ≠ "admin" then
      .error (.forbidden "You don't have permission to access this order")
    else
      .ok order

/-- OrderService.update_order_status (services/order.py lines 83-102); the
endpoint update_order in endpoints/orders.py lines 123-159 inlines the same
logic: 403 unless admin (checked first), then 404 if the order does not
exist, then the status is overwritten only when order_data.status is truthy.
Returns the post-commit store (unchanged on failure). -/
def update_order_status (db : DB) (order_id : String) (order_data : OrderUpdate)
    (current_user : User) : DB × Except Err Order :=
  if current_user.role ≠ "admin" then
    (db, .error (.forbidden "Only admins can update order status"))
  else
    match get_order_by_id db order_id with
    | none => (db, .error (.orderNotFound order_id))
    | some order =>
      let order' :=
        if order_data.statusTruthy then
          { order with status := order_data.status.getD order.status }
        else order
      ({ db with orders := db.orders.map (fun o => if o.id == order.id then order' else o) },
       .ok order')

/-- Endpoint get_all_orders (endpoints/orders.py lines 162-193). The query
parameter named status shadows the imported fastapi status module inside the
function body, so in the non-admin branch the expression
status.HTTP_403_FORBIDDEN is an attribute access on None or on a str and
raises AttributeError instead of building the intended HTTPException. -/
def get_all_orders_endpoint (db : DB) (skip limit : Nat)
    (status_param : Option String) (current_user : User) :
    Except Err (List Order) :=
  if current_user.role ≠ "admin" then
    .error .attributeError
  else
    let rows : List Order :=
      match status_param with
      | some s => if s ≠ "" then db.orders.filter (fun o => o.status == s) else db.orders
      | none => db.orders
    .ok ((((rows.mergeSort (fun a b => decide (b.created_at ≤ a.created_at))).drop skip).take limit))

/-- ProductService.create_product (services/products.py lines 42-47): builds
a Product from the validated payload and commits it; new_id models the uuid4
default and now the server_default timestamps. -/
def ProductService.create_product (db : DB) (new_id : String) (now : Nat)
    (product_data : ProductCreate) : DB × Product :=
  let new_product : Product :=
    { id := new_id, name := product_data.name,
      description := product_data.description, price := product_data.price,
      image := product_data.image, category := product_data.category,
      stock := product_data.stock, featured := product_data.featured,
      created_at := now, updated_at := now }
  ({ db with products := db.products ++ [new_product] }, new_product)

/-- ProductService.update_product (services/products.py lines 49-56):
model_dump with exclude_unset yields only the fields present in the partial
payload, and setattr overwrites exactly those; the commit replaces the row
in the store. -/
def ProductService.update_product (db : DB) (product : Product)
    (product_data : ProductUpdate) : DB × Product :=
  let updated : Product :=
    { product with
      name := product_data.name.getD product.name,
      description := product_data.description.getD product.description,
      price := product_data.price.getD product.price,
      image := product_data.image.getD product.image,
      category := product_data.category.getD product.category,
      stock := product_data.stock.getD product.stock,
      featured := product_data.featured.getD product.featured }
  ({ db with products := db.products.map (fun q => if q.id == product.id then updated else q) },
   updated)

/-- ProductService.delete_product (services/products.py lines 58-60): removes
the product row; order items keep referencing the deleted id (the order_items
product_id foreign key has no delete cascade). -/
def ProductService.delete_product (db : DB) (product : Product) : DB :=
  { db with products := db.products.filter (fun p => p.id != product.id) }

/-- Endpoint POST /products (endpoints/products.py lines 67-81): the
get_current_admin_user dependency runs first, then the request body is
validated by Pydantic, then the service persists the product. -/
def create_product_endpoint (db : DB) (new_id : String) (now : Nat)
    (product_data : ProductCreate) (current_user : User) :
    Except Err (DB × Product) :=
  match get_current_admin_user current_user with
  | .error e => .error e
  | .ok _ =>
    if ProductCreateValid product_data = false then .error .validationError
    else .ok (ProductService.create_product db new_id now product_data)

/-- Endpoint PATCH /products/{id} (endpoints/products.py lines 84-101).
FastAPI resolves dependencies in the order of the function's parameters:
the product parameter (get_product_or_404_service) is declared before
current_user (get_current_admin_user), so the existence lookup and its 404
run before the admin check. -/
def update_product_endpoint (db : DB) (product_id : String)
    (product_data : ProductUpdate) (current_user : User) :
    Except Err (DB × Product) :=
  match get_product_or_404_service db product_id with
  | .error e => .error e
  | .ok product =>
    match get_current_admin_user current_user with
    | .error e => .error e
    | .ok _ => .ok (ProductService.update_product db product product_data)

/-- Endpoint DELETE /products/{id} (endpoints/products.py lines 104-120):
same dependency order as the PATCH endpoint (404 lookup before admin check). -/
def delete_product_endpoint (db : DB) (product_id : String)
    (current_user : User) : Except Err DB :=
  match get_product_or_404_service db product_id with
  | .error e => .error e
  | .ok product =>
    match get_current_admin_user current_user with
    | .error e => .error e
    | .ok _ => .ok (ProductService.delete_product db product)

/-- One mutating operation of the specified core, with its boundary-supplied
fresh ids and timestamps. Read operations do not change the store and are
omitted from the step relation. -/
inductive Op where
  | createOrder (new_order_id : String) (now : Nat) (payload : OrderCreate) (actor : User)
  | updateOrderStatus (order_id : String) (payload : OrderUpdate) (actor : User)
  | createProduct (new_id : String) (now : Nat) (payload : ProductCreate) (actor : User)
  | updateProduct (product_id : String) (payload : ProductUpdate) (actor : User)
  | deleteProduct (product_id : String) (actor : User)
  deriving Repr

/-- Request-boundary (Pydantic) validation of the payload an operation
carries; requests failing it are rejected with 422 before the endpoint runs. -/
def Op.boundaryValid : Op → Bool
  | .createOrder _ _ payload _ => OrderCreateValid payload
  | .updateOrderStatus _ payload _ => OrderUpdateValid payload
  | .createProduct _ _ payload _ => ProductCreateValid payload
  | .updateProduct _ _ _ => true
  | .deleteProduct _ _ => true

/-- Post-state of running one mutating operation against the store; a failed
operation leaves the store unchanged (nothing committed). -/
def applyOp (db : DB) : Op → DB
  | .createOrder new_order_id now payload actor =>
      (create_order db new_order_id now payload actor).1
  | .updateOrderStatus order_id payload actor =>
      (update_order_status db order_id payload actor).1
  | .createProduct new_id now payload actor =>
      match create_product_endpoint db new_id now payload actor with
      | .ok r => r.1
      | .error _ => db
  | .updateProduct product_id payload actor =>
      match update_product_endpoint db product_id payload actor with
      | .ok r => r.1
      | .error _ => db
  | .deleteProduct product_id actor =>
      match delete_product_endpoint db product_id actor with
      | .ok db' => db'
      | .error _ => db

/-- Invariant of the data model: every stored Order has at least one
OrderItem referencing it. -/
def ordersHaveItems (db : DB) : Prop :=
  ∀ o ∈ db.orders, ∃ it ∈ db.order_items, it.order_id = o.id

instance (db : DB) : Decidable (ordersHaveItems db) := by
  unfold ordersHaveItems; infer_instance

/-- OrderService.get_all_orders (services/order.py lines 104-117): the
service-layer duplicate of the same operation raises the 403 correctly. -/
def OrderService.get_all_orders (db : DB) (current_user : User)
    (skip limit : Nat) (status_filter : Option String) :
    Except Err (List Order) :=
  if current_user.role ≠ "admin" then
    .error (.forbidden "Only admins can view all orders")
  else
    let rows : List Order :=
      match status_filter with
      | some s => if s ≠ "" then db.orders.filter (fun o => o.status == s) else db.orders
      | none => db.orders
    .ok ((((rows.mergeSort (fun a b => decide (b.created_at ≤ a.created_at))).drop skip).take limit))

/-- Sample catalog row used to instantiate the theorems below. -/
def prodP1 : Product :=
  { id := "p1", name := "Widget", description := "A widget", price := 10,
    image := "img", category := "tools", stock := 5, featured := false,
    created_at := 1, updated_at := 1 }

/-- Sample customer actor. -/
def userAlice : User := { id := "alice", role := "customer" }

/-- Sample customer actor distinct from userAlice. -/
def userBob : User := { id := "bob", role := "customer" }

/-- Sample admin actor. -/
def userAdmin : User := { id := "root", role := "admin" }

/-- Sample stored order owned by userAlice. -/
def orderO1 : Order :=
  { id := "o1", user_id := "alice", total := 20, status := "pending",
    created_at := 2, updated_at := 2 }

/-- Sample stored order item belonging to orderO1. -/
def itemO1 : OrderItem :=
  { id := "o1#0", order_id := "o1", product_id := "p1", quantity := 2,
    price := 10, created_at := 2 }

/-- Sample store holding one product and no orders. -/
def dbW : DB := { products := [prodP1], orders := [], order_items := [] }

/-- Sample store holding one product and one order with its item. -/
def dbO : DB := { products := [prodP1], orders := [orderO1], order_items := [itemO1] }

/-- The empty partial product-update payload (no field set). -/
def noProductUpdate : ProductUpdate :=
  { name := none, description := none, price := none, image := none,
    category := none, stock := none, featured := none }

/-- Partial product-update payload setting only the price. -/
def pricePatch : ProductUpdate :=
  { noProductUpdate with price := some 42 }

/-- Product-creation payload that is valid except for a price of exactly 0. -/
def priceZeroPayload : ProductCreate :=
  { name := "Widget", description := "A widget", price := 0, image := "img",
    category := "tools", stock := 3, featured := false }

/-- Fully valid product-creation payload. -/
def validProductPayload : ProductCreate :=
  { name := "Widget", description := "A widget", price := 42, image := "img",
    category := "tools", stock := 3, featured := true }

/-- On a list whose keys are unique, find? with a member's key returns
exactly that member. -/
theorem find_key_eq_of_mem_nodup {α : Type} (key : α → String) :
    ∀ {l : List α}, (l.map key).Nodup → ∀ {x : α}, x ∈ l →
      l.find? (fun y => key y == key x) = some x := by
  intro l
  induction l with
  | nil => intro _ x hx; cases hx
  | cons a t ih =>
    intro hnd x hx
    rw [List.map_cons, List.nodup_cons] at hnd
    rcases List.mem_cons.mp hx with rfl | hx
    · exact List.find?_cons_of_pos _ (by simp)
    · have hne : (key a == key x) = false := by
        refine beq_eq_false_iff_ne.mpr (fun h => hnd.1 ?h)
        rw [h]
        exact List.mem_map.mpr ⟨x, hx, rfl⟩
      rw [List.find?_cons_of_neg _ (by simp [hne]), ih hnd.2 hx]

/-- On a list whose keys are unique, replacing the element carrying a
member's key by that member itself leaves the list unchanged. -/
theorem map_replace_key_self {α : Type} (key : α → String) {l : List α}
    (hnd : (l.map key).Nodup) {x : α} (hx : x ∈ l) :
    l.map (fun y => if key y == key x then x else y) = l := by
  have h : ∀ y ∈ l, (if key y == key x then x else y) = y := by
    intro y hy
    by_cases hk : (key y == key x) = true
    · rw [if_pos hk]
      exact (List.inj_on_of_nodup_map hnd hx hy (beq_iff_eq.mp hk).symm)
    · rw [if_neg hk]
  rw [List.map_congr_left h]
  exact List.map_id l

/-- Successful POST /products leaves the orders and order_items tables
untouched. -/
theorem create_product_endpoint_ok_frame {db : DB} {new_id : String} {now : Nat}
    {payload : ProductCreate} {actor : User} {r : DB × Product}
    (h : create_product_endpoint db new_id now payload actor = Except.ok r) :
    r.1.orders = db.orders ∧ r.1.order_items = db.order_items := by
  unfold create_product_endpoint at h
  cases hA : get_current_admin_user actor with
  | error e => rw [hA] at h; cases h
  | ok u =>
    rw [hA] at h
    by_cases hv : ProductCreateValid payload = false
    · rw [if_pos hv] at h; cases h
    · rw [if_neg hv] at h
      cases h
      exact ⟨rfl, rfl⟩

/-- Successful PATCH /products/{id} leaves the orders and order_items tables
untouched. -/
theorem update_product_endpoint_ok_frame {db : DB} {product_id : String}
    {payload : ProductUpdate} {actor : User} {r : DB × Product}
    (h : update_product_endpoint db product_id payload actor = Except.ok r) :
    r.1.orders = db.orders ∧ r.1.order_items = db.order_items := by
  unfold update_product_endpoint at h
  cases hP : get_product_or_404_service db product_id with
  | error e => rw [hP] at h; cases h
  | ok p =>
    rw [hP] at h
    cases hA : get_current_admin_user actor with
    | error e => rw [hA] at h; cases h
    | ok u =>
      rw [hA] at h
      cases h
      exact ⟨rfl, rfl⟩

/-- C1: for every valid createOrder call (items non-empty, quantities and
prices positive, total positive) on a store where the supplied fresh order id
is really fresh, either the call fails and the store is returned unchanged
(nothing persisted), or exactly one Order row is persisted - owned by the
acting user, status pending, total as supplied - together with exactly one
OrderItem row per input item referencing that Order, and no other row of any
table changes; the write is a single atomic store update, so no intermediate
state is observable. -/
theorem createOrder_atomic (db : DB) (oid : String) (now : Nat)
    (payload : OrderCreate) (u : User)
    (_hvalid : OrderCreateValid payload = true)
    (hfresh : ∀ o ∈ db.orders, o.id ≠ oid)
    (hfreshIt : ∀ it ∈ db.order_items, it.order_id ≠ oid) :
    (∀ e, (create_order db oid now payload u).2 = Except.error e →
        (create_order db oid now payload u).1 = db) ∧
    (∀ o, (create_order db oid now payload u).2 = Except.ok o →
        o.id = oid ∧ o.user_id = u.id ∧ o.status = "pending" ∧
        o.total = payload.total ∧
        (create_order db oid now payload u).1.products = db.products ∧
        (create_order db oid now payload u).1.orders = db.orders ++ [o] ∧
        (create_order db oid now payload u).1.orders.countP
            (fun x => x.id == oid) = 1 ∧
        ((create_order db oid now payload u).1.order_items.filter
            (fun it => it.order_id == oid)).length = payload.items.length ∧
        (create_order db oid now payload u).1.order_items.filter
            (fun it => !(it.order_id == oid)) = db.order_items) := by
  by_cases hg : ((db.products.filter fun p =>
      ((payload.items.map fun it => it.product_id).contains p.id)).length
      ≠ (payload.items.map fun it => it.product_id).length)
  · have h1 : (create_order db oid now payload u).1 = db := by
      simp only [create_order]
      rw [if_pos hg]
    constructor
    · intro e _
      exact h1
    · intro o ho
      simp only [create_order] at ho
      rw [if_pos hg] at ho
      simp at ho
  · have h2 : (create_order db oid now payload u).2 = Except.ok
        { id := oid, user_id := u.id, total := payload.total,
          status := "pending", created_at := now, updated_at := now } := by
      simp only [create_order]
      rw [if_neg hg]
    have h1 : (create_order db oid now payload u).1 =
        { db with
          orders := db.orders ++
            [{ id := oid, user_id := u.id, total := payload.total,
               status := "pending", created_at := now, updated_at := now }],
          order_items := db.order_items ++
            payload.items.enum.map (fun p =>
              { id := oid ++ "#" ++ toString p.1, order_id := oid,
                product_id := p.2.product_id, quantity := p.2.quantity,
                price := p.2.price, created_at := now }) } := by
      simp only [create_order]
      rw [if_neg hg]
    constructor
    · intro e he
      rw [h2] at he
      cases he
    · intro o ho
      rw [h2] at ho
      injection ho with ho
      subst ho
      refine ⟨rfl, rfl, rfl, rfl, by rw [h1], by rw [h1], ?cnt, ?len, ?rest⟩
      case cnt =>
        rw [h1]
        simp only [List.countP_append]
        have hz : db.orders.countP (fun x => x.id == oid) = 0 :=
          List.countP_eq_zero.mpr (fun x hx => by
            simp [beq_eq_false_iff_ne.mpr (hfresh x hx)])
        rw [hz]
        simp [List.countP_cons]
      case len =>
        rw [h1]
        simp only [List.filter_append]
        have hz : db.order_items.filter (fun it => it.order_id == oid) = [] :=
          List.filter_eq_nil_iff.mpr (fun it hit => by
            simp [beq_eq_false_iff_ne.mpr (hfreshIt it hit)])
        have hs : (payload.items.enum.map (fun p =>
            ({ id := oid ++ "#" ++ toString p.1, order_id := oid,
               product_id := p.2.product_id, quantity := p.2.quantity,
               price := p.2.price, created_at := now } : OrderItem))).filter
              (fun it => it.order_id == oid)
            = payload.items.enum.map (fun p =>
              { id := oid ++ "#" ++ toString p.1, order_id := oid,
                product_id := p.2.product_id, quantity := p.2.quantity,
                price := p.2.price, created_at := now }) :=
          List.filter_eq_self.mpr (fun it hit => by
            obtain ⟨q, _, rfl⟩ := List.mem_map.mp hit
            simp)
        rw [hz, hs]
        simp [List.enum_length]
      case rest =>
        rw [h1]
        simp only [List.filter_append]
        have hs : db.order_items.filter (fun it => !(it.order_id == oid))
            = db.order_items :=
          List.filter_eq_self.mpr (fun it hit => by
            simp [beq_eq_false_iff_ne.mpr (hfreshIt it hit)])
        have hz : (payload.items.enum.map (fun p =>
            ({ id := oid ++ "#" ++ toString p.1, order_id := oid,
               product_id := p.2.product_id, quantity := p.2.quantity,
               price := p.2.price, created_at := now } : OrderItem))).filter
              (fun it => !(it.order_id == oid)) = [] :=
          List.filter_eq_nil_iff.mpr (fun it hit => by
            obtain ⟨q, _, rfl⟩ := List.mem_map.mp hit
            simp)
        rw [hz, hs]
        simp

/-- C1 witness: a concrete valid one-item order against a store holding the
referenced product persists the order row and its single item. -/
theorem createOrder_atomic_witness :
    (create_order dbW "o1" 7 { items := [{ product_id := "p1", quantity := 1, price := 10 }], total := 10 } userAlice).1.orders.countP
      (fun x => x.id == "o1") = 1 ∧
    ((create_order dbW "o1" 7 { items := [{ product_id := "p1", quantity := 1, price := 10 }], total := 10 } userAlice).1.order_items.filter
      (fun it => it.order_id == "o1")).length = 1 := by
  have h := createOrder_atomic dbW "o1" 7
    { items := [{ product_id := "p1", quantity := 1, price := 10 }], total := 10 }
    userAlice (by decide) (by decide) (by decide)
  have hok := h.2 _ rfl
  exact ⟨hok.2.2.2.2.2.2.1, hok.2.2.2.2.2.2.2.1⟩

/-- C2: the code compares the number of distinct matching product rows with
the non-deduplicated length of the requested id list, so a request repeating
an existing product id in two items raises the 404 "Products not found"
even though every referenced product exists - and its missing-id list is
empty, naming no product; nothing is persisted. -/
theorem createOrder_duplicate_existing_id_spurious_404 :
    (create_order dbW "o1" 3
      { items := [{ product_id := "p1", quantity := 1, price := 10 },
                  { product_id := "p1", quantity := 2, price := 10 }],
        total := 30 } userAlice).2
      = Except.error (Err.productsNotFound []) ∧
    (create_order dbW "o1" 3
      { items := [{ product_id := "p1", quantity := 1, price := 10 },
                  { product_id := "p1", quantity := 2, price := 10 }],
        total := 30 } userAlice).1 = dbW ∧
    OrderCreateValid
      { items := [{ product_id := "p1", quantity := 1, price := 10 },
                  { product_id := "p1", quantity := 2, price := 10 }],
        total := 30 } = true := by
  refine ⟨rfl, rfl, by decide⟩

/-- C3: getOrder checks existence first - a missing order id yields NotFound
for every actor - and then ownership: for a stored order the call succeeds
exactly when the actor owns it or is admin, and fails Forbidden otherwise. -/
theorem getOrder_existence_then_ownership (db : DB) (a : User) (hwf : db.wf) :
    (∀ o ∈ db.orders,
      (get_order_with_auth db o.id a = Except.ok o
          ↔ (a.id = o.user_id ∨ a.role = "admin")) ∧
      ((a.id ≠ o.user_id ∧ a.role ≠ "admin") →
        get_order_with_auth db o.id a
          = Except.error (Err.forbidden
              "You don't have permission to access this order"))) ∧
    (∀ order_id : String, (∀ o ∈ db.orders, o.id ≠ order_id) →
      get_order_with_auth db order_id a
        = Except.error (Err.orderNotFound order_id)) := by
  constructor
  · intro o ho
    have hfind : get_order_by_id db o.id = some o :=
      find_key_eq_of_mem_nodup Order.id hwf.2 ho
    constructor
    · simp only [get_order_with_auth, hfind]
      by_cases hc : (o.user_id ≠ a.id ∧ a.role ≠ "admin")
      · rw [if_pos hc]
        constructor
        · intro h
          cases h
        · intro h
          rcases h with h | h
          · exact absurd h.symm hc.1
          · exact absurd h hc.2
      · rw [if_neg hc]
        constructor
        · intro _
          push_neg at hc
          by_cases hu : o.user_id = a.id
          · exact Or.inl hu.symm
          · exact Or.inr (hc hu)
        · intro _
          rfl
    · intro h
      simp only [get_order_with_auth, hfind]
      rw [if_pos ⟨fun he => h.1 he.symm, h.2⟩]
  · intro order_id h
    have hfind : get_order_by_id db order_id = none := by
      unfold get_order_by_id
      rw [List.find?_eq_none]
      intro o ho
      simp [beq_eq_false_iff_ne.mpr (h o ho)]
    simp only [get_order_with_auth, hfind]

/-- C3 witness: the owner reads their stored order; a missing id is NotFound;
a different customer is Forbidden. -/
theorem getOrder_existence_then_ownership_witness :
    get_order_with_auth dbO "o1" userAlice = Except.ok orderO1 ∧
    get_order_with_auth dbO "ghost" userAlice
      = Except.error (Err.orderNotFound "ghost") ∧
    get_order_with_auth dbO "o1" userBob
      = Except.error (Err.forbidden
          "You don't have permission to access this order") := by
  have hA := getOrder_existence_then_ownership dbO userAlice (by decide)
  have hB := getOrder_existence_then_ownership dbO userBob (by decide)
  refine ⟨?ok, ?nf, ?fb⟩
  case ok => exact ((hA.1 orderO1 (by decide)).1).mpr (Or.inl rfl)
  case nf => exact hA.2 "ghost" (by decide)
  case fb => exact (hB.1 orderO1 (by decide)).2 (by decide)

/-- C4: in the endpoint serving GET /orders/admin/all the query parameter
named status shadows the imported fastapi status module, so a non-admin
caller hits an AttributeError (a 500 server error) instead of the intended
403 Forbidden; the service-layer duplicate of the operation raises the 403
correctly, which documents the intent the endpoint misses. -/
theorem getAllOrders_nonadmin_attribute_error :
    get_all_orders_endpoint dbO 0 100 none userAlice
      = Except.error Err.attributeError ∧
    get_all_orders_endpoint dbO 0 100 (some "pending") userAlice
      = Except.error Err.attributeError ∧
    Err.attributeError.statusCode = 500 ∧
    OrderService.get_all_orders dbO userAlice 0 100 none
      = Except.error (Err.forbidden "Only admins can view all orders") ∧
    (Err.forbidden "Only admins can view all orders").statusCode = 403 := by
  exact ⟨rfl, rfl, rfl, rfl, rfl⟩

/-- C5: updateOrderStatus checks the actor's role before order existence:
every non-admin caller gets Forbidden whatever the order id, and an admin
caller gets NotFound when no order carries the id. -/
theorem updateOrderStatus_role_before_existence (db : DB) (order_id : String)
    (payload : OrderUpdate) (a : User) :
    (a.role ≠ "admin" →
      update_order_status db order_id payload a
        = (db, Except.error (Err.forbidden "Only admins can update order status"))) ∧
    (a.role = "admin" → (∀ o ∈ db.orders, o.id ≠ order_id) →
      update_order_status db order_id payload a
        = (db, Except.error (Err.orderNotFound order_id))) := by
  constructor
  · intro h
    unfold update_order_status
    rw [if_pos h]
  · intro ha h
    have hfind : get_order_by_id db order_id = none := by
      unfold get_order_by_id
      rw [List.find?_eq_none]
      intro o ho
      simp [beq_eq_false_iff_ne.mpr (h o ho)]
    unfold update_order_status
    rw [if_neg (fun hne => hne ha), hfind]

/-- C5 witness: a customer is refused on a nonexistent order id, while an
admin gets NotFound on the same id. -/
theorem updateOrderStatus_role_before_existence_witness :
    update_order_status dbO "ghost" { status := some "shipped" } userAlice
      = (dbO, Except.error (Err.forbidden "Only admins can update order status")) ∧
    update_order_status dbO "ghost" { status := some "shipped" } userAdmin
      = (dbO, Except.error (Err.orderNotFound "ghost")) := by
  have h1 := updateOrderStatus_role_before_existence dbO "ghost"
    { status := some "shipped" } userAlice
  have h2 := updateOrderStatus_role_before_existence dbO "ghost"
    { status := some "shipped" } userAdmin
  exact ⟨h1.1 (by decide), h2.2 rfl (by decide)⟩

/-- Successful DELETE /products/{id} leaves the orders and order_items tables
untouched. -/
theorem delete_product_endpoint_ok_frame {db : DB} {product_id : String}
    {actor : User} {db' : DB}
    (h : delete_product_endpoint db product_id actor = Except.ok db') :
    db'.orders = db.orders ∧ db'.order_items = db.order_items := by
  unfold delete_product_endpoint at h
  cases hP : get_product_or_404_service db product_id with
  | error e => rw [hP] at h; cases h
  | ok p =>
    rw [hP] at h
    cases hA : get_current_admin_user actor with
    | error e => rw [hA] at h; cases h
    | ok u =>
      rw [hA] at h
      cases h
      exact ⟨rfl, rfl⟩

/-- C6 counterexample: a non-admin actor updating a nonexistent product id
gets NotFound, not Forbidden - the get_product_or_404_service dependency is
declared (and therefore resolved) before get_current_admin_user. -/
theorem updateProduct_nonadmin_missing_product_404 :
    update_product_endpoint dbW "ghost" noProductUpdate userAlice
      = Except.error Err.productNotFound ∧
    Err.productNotFound.statusCode = 404 := ⟨rfl, rfl⟩

/-- C6 amended: updateProduct checks existence before authorization (like
getOrder, unlike updateOrderStatus): a nonexistent product id fails NotFound
for every actor, and a non-admin actor fails Forbidden whenever the product
exists. -/
theorem updateProduct_existence_before_role (db : DB) (product_id : String)
    (payload : ProductUpdate) (a : User) :
    ((∀ p ∈ db.products, p.id ≠ product_id) →
      update_product_endpoint db product_id payload a
        = Except.error Err.productNotFound) ∧
    (a.role ≠ "admin" → ∀ p ∈ db.products, p.id = product_id →
      update_product_endpoint db product_id payload a
        = Except.error (Err.forbidden
            "Only admins are allowed to perform this action")) := by
  constructor
  · intro h
    have hfind : ProductService.get_product db product_id = none := by
      unfold ProductService.get_product
      rw [List.find?_eq_none]
      intro p hp
      simp [beq_eq_false_iff_ne.mpr (h p hp)]
    simp only [update_product_endpoint, get_product_or_404_service, hfind]
  · intro hr p hp hpid
    cases hfind : ProductService.get_product db product_id with
    | none =>
      exfalso
      unfold ProductService.get_product at hfind
      rw [List.find?_eq_none] at hfind
      have hc := hfind p hp
      simp [hpid] at hc
    | some q =>
      simp only [update_product_endpoint, get_product_or_404_service, hfind,
        get_current_admin_user]
      rw [if_pos hr]

/-- C6 witness: an admin still gets NotFound on a missing id, and a customer
gets Forbidden on an existing one. -/
theorem updateProduct_existence_before_role_witness :
    update_product_endpoint dbW "ghost" noProductUpdate userAdmin
      = Except.error Err.productNotFound ∧
    update_product_endpoint dbW "p1" noProductUpdate userAlice
      = Except.error (Err.forbidden
          "Only admins are allowed to perform this action") := by
  have h1 := updateProduct_existence_before_role dbW "ghost" noProductUpdate userAdmin
  have h2 := updateProduct_existence_before_role dbW "p1" noProductUpdate userAlice
  exact ⟨h1.1 (by decide), h2.2 (by decide) prodP1 (by decide) rfl⟩

/-- C7: for an existing product and an admin actor, updateProduct overwrites
exactly the fields present in the partial payload: each present field takes
the payload's value, each absent field keeps its prior value, the id and
creation time are untouched, only that product's row changes, and the order
tables are untouched. -/
theorem updateProduct_partial_overwrite (db : DB) (p : Product)
    (payload : ProductUpdate) (a : User)
    (hwf : db.wf) (hp : p ∈ db.products) (ha : a.role = "admin") :
    update_product_endpoint db p.id payload a
      = Except.ok (ProductService.update_product db p payload) ∧
    (∀ v, payload.name = some v →
      (ProductService.update_product db p payload).2.name = v) ∧
    (payload.name = none →
      (ProductService.update_product db p payload).2.name = p.name) ∧
    (∀ v, payload.description = some v →
      (ProductService.update_product db p payload).2.description = v) ∧
    (payload.description = none →
      (ProductService.update_product db p payload).2.description = p.description) ∧
    (∀ v, payload.price = some v →
      (ProductService.update_product db p payload).2.price = v) ∧
    (payload.price = none →
      (ProductService.update_product db p payload).2.price = p.price) ∧
    (∀ v, payload.image = some v →
      (ProductService.update_product db p payload).2.image = v) ∧
    (payload.image = none →
      (ProductService.update_product db p payload).2.image = p.image) ∧
    (∀ v, payload.category = some v →
      (ProductService.update_product db p payload).2.category = v) ∧
    (payload.category = none →
      (ProductService.update_product db p payload).2.category = p.category) ∧
    (∀ v, payload.stock = some v →
      (ProductService.update_product db p payload).2.stock = v) ∧
    (payload.stock = none →
      (ProductService.update_product db p payload).2.stock = p.stock) ∧
    (∀ v, payload.featured = some v →
      (ProductService.update_product db p payload).2.featured = v) ∧
    (payload.featured = none →
      (ProductService.update_product db p payload).2.featured = p.featured) ∧
    (ProductService.update_product db p payload).2.id = p.id ∧
    (ProductService.update_product db p payload).2.created_at = p.created_at ∧
    (ProductService.update_product db p payload).1.orders = db.orders ∧
    (ProductService.update_product db p payload).1.order_items = db.order_items ∧
    (ProductService.update_product db p payload).1.products
      = db.products.map (fun q =>
          if q.id == p.id then (ProductService.update_product db p payload).2 else q) := by
  have hfind : ProductService.get_product db p.id = some p :=
    find_key_eq_of_mem_nodup Product.id hwf.1 hp
  refine ⟨?ep, ?n1, ?n2, ?d1, ?d2, ?p1, ?p2, ?i1, ?i2, ?c1, ?c2, ?s1, ?s2,
    ?f1, ?f2, rfl, rfl, rfl, rfl, rfl⟩
  case ep =>
    simp only [update_product_endpoint, get_product_or_404_service, hfind,
      get_current_admin_user]
    rw [if_neg (fun h => h ha)]
  all_goals first
    | (intro v hv; simp [ProductService.update_product, hv])
    | (intro hv; simp [ProductService.update_product, hv])

/-- C7 witness: patching only the price of the sample product changes the
price to the payload value and keeps the name. -/
theorem updateProduct_partial_overwrite_witness :
    (ProductService.update_product dbW prodP1 pricePatch).2.price = 42 ∧
    (ProductService.update_product dbW prodP1 pricePatch).2.name = prodP1.name ∧
    update_product_endpoint dbW prodP1.id pricePatch userAdmin
      = Except.ok (ProductService.update_product dbW prodP1 pricePatch) := by
  have h := updateProduct_partial_overwrite dbW prodP1 pricePatch userAdmin
    (by decide) (by decide) rfl
  exact ⟨h.2.2.2.2.2.1 42 rfl, h.2.2.1 rfl, h.1⟩

/-- C8: every mutating operation of the core preserves the invariant that
every stored Order has at least one OrderItem: createOrder only runs with a
boundary-validated non-empty item list and inserts one item per input item,
updateOrderStatus rewrites a status without touching items, and the catalog
operations never touch the order tables. -/
theorem orders_always_have_items (db : DB) (op : Op)
    (hvalid : op.boundaryValid = true) (hinv : ordersHaveItems db) :
    ordersHaveItems (applyOp db op) := by
  cases op with
  | createOrder oid now payload actor =>
    simp only [applyOp]
    by_cases hg : ((db.products.filter fun p =>
        ((payload.items.map fun it => it.product_id).contains p.id)).length
        ≠ (payload.items.map fun it => it.product_id).length)
    · have h1 : (create_order db oid now payload actor).1 = db := by
        simp only [create_order]
        rw [if_pos hg]
      rw [h1]
      exact hinv
    · have h1 : (create_order db oid now payload actor).1 =
          { db with
            orders := db.orders ++
              [{ id := oid, user_id := actor.id, total := payload.total,
                 status := "pending", created_at := now, updated_at := now }],
            order_items := db.order_items ++
              payload.items.enum.map (fun q =>
                { id := oid ++ "#" ++ toString q.1, order_id := oid,
                  product_id := q.2.product_id, quantity := q.2.quantity,
                  price := q.2.price, created_at := now }) } := by
        simp only [create_order]
        rw [if_neg hg]
      rw [h1]
      intro o ho
      rcases List.mem_append.mp ho with ho | ho
      · obtain ⟨it, hit, hid⟩ := hinv o ho
        exact ⟨it, List.mem_append_left _ hit, hid⟩
      · have hlen : 0 < payload.items.enum.length := by
          rw [List.enum_length]
          simp only [Op.boundaryValid, OrderCreateValid, Bool.and_eq_true,
            decide_eq_true_eq] at hvalid
          exact hvalid.1.1
        obtain ⟨q, hq⟩ := List.exists_mem_of_length_pos hlen
        rcases List.mem_singleton.mp ho with rfl
        exact ⟨_, List.mem_append_right _ (List.mem_map.mpr ⟨q, hq, rfl⟩), rfl⟩
  | updateOrderStatus order_id payload actor =>
    simp only [applyOp]
    by_cases hr : actor.role ≠ "admin"
    · have h1 : (update_order_status db order_id payload actor).1 = db := by
        simp only [update_order_status]
        rw [if_pos hr]
      rw [h1]
      exact hinv
    · cases hfind : get_order_by_id db order_id with
      | none =>
        have h1 : (update_order_status db order_id payload actor).1 = db := by
          simp only [update_order_status, hfind]
          rw [if_neg hr]
        rw [h1]
        exact hinv
      | some order =>
        have h1 : (update_order_status db order_id payload actor).1 =
            { db with orders := db.orders.map (fun x =>
                if x.id == order.id then
                  (if payload.statusTruthy then
                    { order with status := payload.status.getD order.status }
                  else order)
                else x) } := by
          simp only [update_order_status, hfind]
          rw [if_neg hr]
        rw [h1]
        intro o ho
        obtain ⟨x, hx, hfx⟩ := List.mem_map.mp ho
        by_cases hxid : (x.id == order.id) = true
        · have hom : order ∈ db.orders := List.mem_of_find?_eq_some hfind
          obtain ⟨it, hit, hid⟩ := hinv order hom
          refine ⟨it, hit, ?oid⟩
          rw [← hfx, if_pos hxid]
          have hsame : (if payload.statusTruthy then
              { order with status := payload.status.getD order.status }
            else order).id = order.id := by
            split
            · rfl
            · rfl
          rw [hsame]
          exact hid
        · obtain ⟨it, hit, hid⟩ := hinv x hx
          refine ⟨it, hit, ?oid2⟩
          rw [← hfx, if_neg hxid]
          exact hid
  | createProduct new_id now payload actor =>
    simp only [applyOp]
    cases hE : create_product_endpoint db new_id now payload actor with
    | error e => exact hinv
    | ok r =>
      obtain ⟨ho, hi⟩ := create_product_endpoint_ok_frame hE
      show ordersHaveItems r.1
      intro o hoo
      rw [ho] at hoo
      obtain ⟨it, hit, hid⟩ := hinv o hoo
      exact ⟨it, by rw [hi]; exact hit, hid⟩
  | updateProduct product_id payload actor =>
    simp only [applyOp]
    cases hE : update_product_endpoint db product_id payload actor with
    | error e => exact hinv
    | ok r =>
      obtain ⟨ho, hi⟩ := update_product_endpoint_ok_frame hE
      show ordersHaveItems r.1
      intro o hoo
      rw [ho] at hoo
      obtain ⟨it, hit, hid⟩ := hinv o hoo
      exact ⟨it, by rw [hi]; exact hit, hid⟩
  | deleteProduct product_id actor =>
    simp only [applyOp]
    cases hE : delete_product_endpoint db product_id actor with
    | error e => exact hinv
    | ok db' =>
      obtain ⟨ho, hi⟩ := delete_product_endpoint_ok_frame hE
      show ordersHaveItems db'
      intro o hoo
      rw [ho] at hoo
      obtain ⟨it, hit, hid⟩ := hinv o hoo
      exact ⟨it, by rw [hi]; exact hit, hid⟩

/-- C8 witness: the invariant holds after an admin status update on the
sample store. -/
theorem orders_always_have_items_witness :
    ordersHaveItems (applyOp dbO
      (Op.updateOrderStatus "o1" { status := some "shipped" } userAdmin)) :=
  orders_always_have_items dbO
    (Op.updateOrderStatus "o1" { status := some "shipped" } userAdmin)
    (by decide) (by decide)

/-- C9 counterexample: a payload that is valid except for a price of exactly
0 is rejected by the Pydantic boundary (price carries gt=0, not ge=0), so an
admin's createProduct call with price 0 does not succeed. -/
theorem createProduct_price_zero_rejected :
    ProductCreateValid priceZeroPayload = false ∧
    create_product_endpoint dbW "p9" 5 priceZeroPayload userAdmin
      = Except.error Err.validationError ∧
    Err.validationError.statusCode = 422 := ⟨rfl, rfl, rfl⟩

/-- C9 amended: createProduct by an admin requires price strictly positive
and stock non-negative; every payload meeting the boundary constraints is
persisted as a new Product carrying the server-generated identifier and
timestamps. -/
theorem createProduct_admin_valid_persists (db : DB) (new_id : String)
    (now : Nat) (payload : ProductCreate) (a : User)
    (ha : a.role = "admin") (hv : ProductCreateValid payload = true) :
    create_product_endpoint db new_id now payload a
      = Except.ok (ProductService.create_product db new_id now payload) ∧
    (ProductService.create_product db new_id now payload).1.products
      = db.products ++ [(ProductService.create_product db new_id now payload).2] ∧
    (ProductService.create_product db new_id now payload).1.orders = db.orders ∧
    (ProductService.create_product db new_id now payload).1.order_items
      = db.order_items ∧
    (ProductService.create_product db new_id now payload).2.id = new_id ∧
    (ProductService.create_product db new_id now payload).2.created_at = now ∧
    (ProductService.create_product db new_id now payload).2.updated_at = now ∧
    (ProductService.create_product db new_id now payload).2.name = payload.name ∧
    (ProductService.create_product db new_id now payload).2.price = payload.price ∧
    (ProductService.create_product db new_id now payload).2.stock = payload.stock ∧
    0 < (ProductService.create_product db new_id now payload).2.price ∧
    0 ≤ (ProductService.create_product db new_id now payload).2.stock := by
  have hvf : ¬ (ProductCreateValid payload = false) := by
    rw [hv]
    simp
  refine ⟨?ep, rfl, rfl, rfl, rfl, rfl, rfl, rfl, rfl, rfl, ?pp, ?ps⟩
  case ep =>
    simp only [create_product_endpoint, get_current_admin_user]
    rw [if_neg (fun h => h ha), if_neg hvf]
  case pp =>
    simp only [ProductCreateValid, Bool.and_eq_true, decide_eq_true_eq] at hv
    exact hv.1.1.1.2
  case ps =>
    simp only [ProductCreateValid, Bool.and_eq_true, decide_eq_true_eq] at hv
    exact hv.2

/-- C9 witness: a concrete valid payload with positive price persists. -/
theorem createProduct_admin_valid_persists_witness :
    create_product_endpoint dbW "p9" 5 validProductPayload userAdmin
      = Except.ok (ProductService.create_product dbW "p9" 5 validProductPayload) ∧
    (ProductService.create_product dbW "p9" 5 validProductPayload).2.id = "p9" := by
  have h := createProduct_admin_valid_persists dbW "p9" 5 validProductPayload
    userAdmin rfl (by decide)
  exact ⟨h.1, h.2.2.2.2.1⟩

/-- C10: an admin's updateOrderStatus call whose payload carries no status
(absent or null, both parsed to None) succeeds, changes nothing in the
store, and returns the stored order with every field unchanged. -/
theorem updateOrderStatus_absent_status_noop (db : DB) (o : Order) (a : User)
    (hwf : db.wf) (ho : o ∈ db.orders) (ha : a.role = "admin") :
    update_order_status db o.id { status := none } a = (db, Except.ok o) := by
  have hfind : get_order_by_id db o.id = some o :=
    find_key_eq_of_mem_nodup Order.id hwf.2 ho
  have hmap : db.orders.map (fun x => if x.id == o.id then o else x) = db.orders :=
    map_replace_key_self Order.id hwf.2 ho
  simp only [update_order_status, hfind, OrderUpdate.statusTruthy]
  rw [if_neg (fun h => h ha)]
  simp only [Bool.false_eq_true, if_false, hmap]

/-- C10 witness: the no-op update on the sample order returns it unchanged
with the store untouched. -/
theorem updateOrderStatus_absent_status_noop_witness :
    update_order_status dbO orderO1.id { status := none } userAdmin
      = (dbO, Except.ok orderO1) :=
  updateOrderStatus_absent_status_noop dbO orderO1 userAdmin
    (by decide) (by decide) rfl
